import Mathlib

/-!
Shallow embedding of the haaska adapter (src/haaska.py): configuration
parsing, URL normalization, session construction, the HomeAssistant API
client and the Lambda event handler, together with theorems checking the
specification's claims against these definitions.
-/

namespace Haaska

/-- Values of the JSON-like Python data the adapter handles: config dict
values and event payloads. The `tuple` constructor is separate from `list`
because `Configuration.__init__` converts a list-valued `ssl_client` into a
tuple. -/
inductive JValue where
  | null
  | bool (b : Bool)
  | num (n : Int)
  | str (s : String)
  | list (xs : List JValue)
  | tuple (xs : List JValue)
deriving Repr

/-- Exceptions the embedded code can raise. `valueError`, `typeError` and
`attributeError` are Python builtins; `connError`, `httpError` and
`decodeError` stand for the corresponding `requests` exceptions; `osError`
stands for any system error (such as a missing file) that the code does not
catch. -/
inductive PyError where
  | valueError (msg : String)
  | attributeError
  | typeError (msg : String)
  | connError (msg : String)
  | httpError (status : Nat)
  | decodeError (msg : String)
  | osError (msg : String)
deriving Repr, DecidableEq

/-- Python truthiness, as tested by `if not url` in `Configuration.get_url`. -/
def pyTruthy : JValue → Bool
  | .null => false
  | .bool b => b
  | .num n => n != 0
  | .str s => !s.isEmpty
  | .list xs => !xs.isEmpty
  | .tuple xs => !xs.isEmpty

/-- Conversion of a value interpolated into an f-string; exact for the
scalar values the claims exercise (strings, booleans, None, integers). -/
def pyStr : JValue → String
  | .null => "None"
  | .bool b => cond b "True" "False"
  | .num n => toString n
  | .str s => s
  | .list _ => "<list>"
  | .tuple _ => "<tuple>"

/-- Lookup in the config dict (`key in self._json` and `self._json[key]`).
The dict is an association list with unique keys; the first binding wins. -/
def pyLookup (json : List (String × JValue)) (key : String) : Option JValue :=
  json.lookup key

/-- Embedding of `Configuration.get`: the Python expression
`next((self._json[key] for key in keys if key in self._json), default)` —
the value under the first key present in the dict, else the default
(`None`, i.e. `JValue.null`, when the call site passes no default). -/
def Configuration.get (json : List (String × JValue)) (keys : List String)
    (dflt : JValue) : JValue :=
  match keys with
  | [] => dflt
  | k :: ks =>
    match pyLookup json k with
    | some v => v
    | none => Configuration.get json ks dflt

/-- Test whether a character list starts with the four characters of the
literal `"/api"`. -/
def isApiHead : List Char → Bool
  | a :: b :: c :: d :: _ => '/' == a && 'a' == b && 'p' == c && 'i' == d
  | _ => false

/-- Embedding of `url.replace("/api", "")`: CPython `str.replace` deletes
the leftmost occurrence of the pattern, scanning left to right and
continuing after each deletion, specialized to pattern `"/api"` and empty
replacement. -/
def removeApi : List Char → List Char
  | '/' :: 'a' :: 'p' :: 'i' :: rest => removeApi rest
  | c :: cs => c :: removeApi cs
  | [] => []

/-- Embedding of `.rstrip("/")`: remove every trailing slash character. -/
def rstripSlashes (l : List Char) : List Char :=
  (l.reverse.dropWhile (fun c => c == '/')).reverse

/-- Embedding of `Configuration.get_url`: raise
`ValueError('Property "url" is missing in config')` when the looked-up
value is falsy; when it is a string, return
`url.replace("/api", "").rstrip("/")`; any other truthy value has no
`.replace` method and raises `AttributeError`. -/
def Configuration.get_url (url : JValue) : Except PyError String :=
  if pyTruthy url then
    match url with
    | .str s => .ok (String.mk (rstripSlashes (removeApi s.toList)))
    | _ => .error .attributeError
  else
    .error (.valueError "Property \"url\" is missing in config")

/-- Fields assigned by `Configuration.__init__` (the raw `_json` dict is
carried separately where needed). -/
structure Configuration where
  url : String
  ssl_verify : JValue
  bearer_token : JValue
  ssl_client : JValue
  debug : JValue
deriving Repr

/-- The conversion `if isinstance(self.ssl_client, list):
self.ssl_client = tuple(self.ssl_client)`. -/
def tupleize : JValue → JValue
  | .list xs => .tuple xs
  | v => v

/-- Embedding of `Configuration.__init__`: `self.url` is computed first, so
its `ValueError` aborts construction before any other field is assigned;
a list-valued `ssl_client` is converted to a tuple (`tupleize`). -/
def Configuration.init (json : List (String × JValue)) :
    Except PyError Configuration :=
  match Configuration.get_url (Configuration.get json ["url", "ha_url"] .null) with
  | .error e => .error e
  | .ok url =>
    .ok ⟨url,
      Configuration.get json ["ssl_verify", "ha_cert"] (.bool true),
      Configuration.get json ["bearer_token"] (.str ""),
      tupleize (Configuration.get json ["ssl_client"] (.str "")),
      Configuration.get json ["debug"] (.bool false)⟩

/-- Observable state of the `requests.Session` that
`SessionFactory.create_session` configures: its headers and TLS settings. -/
structure Session where
  headers : List (String × String)
  verify : JValue
  cert : JValue
deriving Repr

/-- Embedding of `SessionFactory._get_user_agent`; `aws_region` is
`os.environ.get("AWS_DEFAULT_REGION")` at build time and `lib_ua` is
`requests.utils.default_user_agent()`. -/
def SessionFactory.get_user_agent (aws_region : Option String)
    (lib_ua : String) : String :=
  "Home Assistant Alexa Smart Home Skill - " ++ aws_region.getD "unknown"
    ++ " - " ++ lib_ua

/-- Embedding of `SessionFactory.create_session`. -/
def SessionFactory.create_session (config : Configuration)
    (aws_region : Option String) (lib_ua : String) : Session :=
  ⟨[("Authorization", "Bearer " ++ pyStr config.bearer_token),
    ("content-type", "application/json"),
    ("User-Agent", SessionFactory.get_user_agent aws_region lib_ua)],
   config.ssl_verify, config.ssl_client⟩

/-- A Python object passed positionally to `HomeAssistant.__init__`. -/
inductive PyObj where
  | str (s : String)
  | config (c : Configuration)
  | session (s : Session)
deriving Repr

/-- Embedding of the `HomeAssistant` class: it stores whatever two
constructor arguments it received (Python does not type-check them). -/
structure HomeAssistant where
  base_url : PyObj
  session : PyObj
deriving Repr

/-- Conversion of a constructor argument interpolated into an f-string;
exact on strings, opaque on other objects. -/
def pyObjStr : PyObj → String
  | .str s => s
  | .config _ => "<Configuration object>"
  | .session _ => "<Session object>"

/-- Calling `HomeAssistant(...)` with a list of positional arguments:
`__init__(self, base_url, session)` has two required parameters and no
defaults, so any other arity raises `TypeError` (message modelled for the
one-argument call the handler makes). -/
def pyCallHomeAssistant : List PyObj → Except PyError HomeAssistant
  | [base_url, session] => .ok ⟨base_url, session⟩
  | _ => .error (.typeError
      "HomeAssistant.__init__ missing 1 required positional argument: session")

/-- The module-level constant `DEFAULT_TIMEOUT_SECONDS = 30`. -/
def DEFAULT_TIMEOUT_SECONDS : Nat := 30

/-- Embedding of `HomeAssistant.build_url`: the f-string
`f"{self.base_url}/api/{endpoint}"`. -/
def HomeAssistant.build_url (ha : HomeAssistant) (endpoint : String) : String :=
  pyObjStr ha.base_url ++ "/api/" ++ endpoint

/-- Outcome of the one network call `self.session.post(...)` makes: a
read-timeout, any other request failure (connection refused and friends),
or a response carrying a status code and the result of parsing its body as
JSON (what `r.json()` would yield or raise). -/
inductive HttpOutcome where
  | readTimeout
  | connError (msg : String)
  | response (status : Nat) (body : Except String JValue)
deriving Repr

/-- Embedding of `requests.Response.raise_for_status`: raises `HTTPError`
exactly for status codes 400 to 599. -/
def raise_for_status (status : Nat) : Except PyError Unit :=
  if 400 ≤ status ∧ status < 600 then .error (.httpError status) else .ok ()

/-- What `r.raise_for_status()` followed by `return r.json()` does with a
response that arrived: an `HTTPError` for a 4xx or 5xx status, else a
`JSONDecodeError` when the body does not parse, else the parsed body. -/
def handleResponse (status : Nat) (body : Except String JValue) :
    Except PyError (Option JValue) :=
  match raise_for_status status with
  | .error e => .error e
  | .ok _ =>
    match body with
    | .error msg => .error (.decodeError msg)
    | .ok v => .ok (some v)

/-- Embedding of `HomeAssistant.post`: the `try` block issues the request,
checks the status and parses the body (`handleResponse`); the
`except requests.exceptions.ReadTimeout` clause turns a read-timeout into
`None`; every other exception propagates to the caller. -/
def HomeAssistant.post (ha : HomeAssistant) (endpoint : String)
    (event : JValue) (timeout_seconds : Nat) (outcome : HttpOutcome) :
    Except PyError (Option JValue) :=
  match outcome with
  | .readTimeout => .ok none
  | .connError msg => .error (.connError msg)
  | .response status body => handleResponse status body

/-- What happened when `open(filename)` plus `json.load(f)` ran: either an
exception other than `json.JSONDecodeError` (for example
`FileNotFoundError` from `open`), or the result of parsing the file's
content as a JSON object. -/
inductive FileRead where
  | failure (msg : String)
  | success (parsed : Except String (List (String × JValue)))
deriving Repr

/-- Embedding of `ConfigurationLoader.load`: only `json.JSONDecodeError` is
caught and re-raised as a `ValueError` naming the file and the parse
detail; any other exception propagates unchanged. -/
def ConfigurationLoader.load (filename : String) (r : FileRead) :
    Except PyError (List (String × JValue)) :=
  match r with
  | .failure msg => .error (.osError msg)
  | .success (.error msg) =>
    .error (.valueError ("Invalid JSON in config file " ++ filename ++ ": " ++ msg))
  | .success (.ok d) => .ok d

/-- Embedding of `event_handler`: load `config.json`, build the
`Configuration`, run `ha = HomeAssistant(config)` — a single positional
argument — then `ha.post("alexa/smart_home", event)` with the default
timeout. The `logger.setLevel` call on `config.debug` is a pure logging
side effect and is not modelled. -/
def event_handler (config_file : FileRead) (event : JValue)
    (outcome : HttpOutcome) : Except PyError (Option JValue) :=
  match ConfigurationLoader.load "config.json" config_file with
  | .error e => .error e
  | .ok d =>
    match Configuration.init d with
    | .error e => .error e
    | .ok config =>
      match pyCallHomeAssistant [PyObj.config config] with
      | .error e => .error e
      | .ok ha => ha.post "alexa/smart_home" event DEFAULT_TIMEOUT_SECONDS outcome

/-- Spec rendering, from the words of section 4.1: "remove every occurrence
of the literal substring `/api` anywhere in the URL" — at each position, if
`"/api"` is a prefix of the remaining input, delete those four characters
and continue after them, otherwise keep the character. -/
def specDeleteApi : List Char → List Char
  | [] => []
  | c :: cs =>
    if List.isPrefixOf ['/', 'a', 'p', 'i'] (c :: cs) then
      match cs with
      | _ :: _ :: _ :: rest => specDeleteApi rest
      | _ => []
    else c :: specDeleteApi cs

/-- Spec rendering, from the words of section 4.1: "then strip trailing `/`
characters" — a character is kept unless everything after it strips away
and it is itself a slash. -/
def specStripTrailing : List Char → List Char
  | [] => []
  | c :: cs =>
    match specStripTrailing cs with
    | [] => if c == '/' then [] else [c]
    | out => c :: out

/-- Test whether `"/api"` occurs anywhere in the character list. -/
def containsApi : List Char → Bool
  | [] => false
  | c :: cs => isApiHead (c :: cs) || containsApi cs

/-! Helper lemmas relating the embedded source operations to the spec-side
renderings, used by the claim theorems below. -/

theorem isPrefixOf_api (l : List Char) :
    List.isPrefixOf ['/', 'a', 'p', 'i'] l = isApiHead l := by
  rcases l with _ | ⟨a, _ | ⟨b, _ | ⟨c, _ | ⟨d, t⟩⟩⟩⟩ <;>
    simp [List.isPrefixOf, isApiHead, Bool.and_assoc]

theorem isApiHead_shape {l : List Char} (h : isApiHead l = true) :
    ∃ rest, l = '/' :: 'a' :: 'p' :: 'i' :: rest := by
  rcases l with _ | ⟨a, _ | ⟨b, _ | ⟨c, _ | ⟨d, t⟩⟩⟩⟩ <;>
    simp [isApiHead, and_assoc] at h
  obtain ⟨rfl, rfl, rfl, rfl⟩ := h
  exact ⟨t, rfl⟩

theorem removeApi_skip (rest : List Char) :
    removeApi ('/' :: 'a' :: 'p' :: 'i' :: rest) = removeApi rest := rfl

theorem specDeleteApi_skip (rest : List Char) :
    specDeleteApi ('/' :: 'a' :: 'p' :: 'i' :: rest) = specDeleteApi rest := by
  rw [specDeleteApi.eq_def]
  simp [List.isPrefixOf]

theorem removeApi_keep (c : Char) (cs : List Char)
    (h : isApiHead (c :: cs) = false) :
    removeApi (c :: cs) = c :: removeApi cs := by
  rw [removeApi.eq_def]
  split
  · rename_i rest heq
    rw [heq] at h
    simp [isApiHead] at h
  · rename_i c' cs' heq
    rw [List.cons.injEq] at heq
    rw [heq.1, heq.2]
  · rename_i heq
    exact absurd heq (by simp)

theorem specDeleteApi_keep (c : Char) (cs : List Char)
    (h : isApiHead (c :: cs) = false) :
    specDeleteApi (c :: cs) = c :: specDeleteApi cs := by
  have h' : List.isPrefixOf ['/', 'a', 'p', 'i'] (c :: cs) = false := by
    rw [isPrefixOf_api]; exact h
  rw [specDeleteApi.eq_def]
  simp only [h', Bool.false_eq_true, if_false]

theorem removeApi_eq_specDeleteApi (l : List Char) :
    removeApi l = specDeleteApi l := by
  suffices h : ∀ n (l : List Char), l.length ≤ n → removeApi l = specDeleteApi l from
    h l.length l le_rfl
  intro n
  induction n with
  | zero =>
    intro l hl
    have hnil : l = [] := List.length_eq_zero.mp (Nat.le_zero.mp hl)
    subst hnil; rfl
  | succ n ih =>
    intro l hl
    rcases l with _ | ⟨c, cs⟩
    · rfl
    · cases hh : isApiHead (c :: cs) with
      | true =>
        obtain ⟨rest, hrest⟩ := isApiHead_shape hh
        rw [hrest, removeApi_skip, specDeleteApi_skip]
        refine ih rest ?_
        rw [hrest] at hl
        simp at hl
        omega
      | false =>
        rw [removeApi_keep c cs hh, specDeleteApi_keep c cs hh]
        refine congrArg _ (ih cs ?_)
        simp at hl
        omega

theorem dropWhile_dropWhile (p : Char → Bool) (l : List Char) :
    (l.dropWhile p).dropWhile p = l.dropWhile p := by
  induction l with
  | nil => rfl
  | cons c cs ih =>
    rw [List.dropWhile_cons]
    by_cases hc : p c = true
    · simp [hc, ih]
    · simp [List.dropWhile_cons, hc]

theorem rstripSlashes_idem (l : List Char) :
    rstripSlashes (rstripSlashes l) = rstripSlashes l := by
  rw [rstripSlashes, rstripSlashes, List.reverse_reverse, dropWhile_dropWhile]

theorem rstripSlashes_eq_specStripTrailing (l : List Char) :
    rstripSlashes l = specStripTrailing l := by
  induction l with
  | nil => rfl
  | cons c cs ih =>
    simp only [specStripTrailing]
    rw [← ih]
    by_cases hnil : cs.reverse.dropWhile (fun x => x == '/') = []
    · have h1 : rstripSlashes cs = [] := by
        rw [rstripSlashes, hnil]; rfl
      rw [h1]
      rw [rstripSlashes, List.reverse_cons, List.dropWhile_append, hnil]
      cases hc : (c == '/') <;> simp [List.dropWhile, hc]
    · have h2 : rstripSlashes cs ≠ [] := by
        rw [rstripSlashes]
        simpa using hnil
      rw [rstripSlashes, List.reverse_cons, List.dropWhile_append]
      rcases hr : rstripSlashes cs with _ | ⟨o, os⟩
      · exact absurd hr h2
      · have hne : ¬ (cs.reverse.dropWhile (fun x => x == '/')).isEmpty = true := by
          simpa using hnil
        simp only [hne, Bool.false_eq_true, if_false]
        rw [List.reverse_append]
        simp only [List.reverse_cons, List.reverse_nil, List.nil_append,
          List.singleton_append]
        rw [show (cs.reverse.dropWhile (fun x => x == '/')).reverse = rstripSlashes cs from rfl]
        rw [hr]

theorem removeApi_id_of_not_contains (l : List Char)
    (h : containsApi l = false) : removeApi l = l := by
  induction l with
  | nil => rfl
  | cons c cs ih =>
    rw [containsApi] at h
    rw [Bool.or_eq_false_iff] at h
    rw [removeApi_keep c cs h.1, ih h.2]

theorem configGet_eq_findSome (json : List (String × JValue))
    (keys : List String) (dflt : JValue) :
    Configuration.get json keys dflt
      = (keys.findSome? fun k => pyLookup json k).getD dflt := by
  induction keys with
  | nil => rfl
  | cons k ks ih =>
    rw [Configuration.get, List.findSome?_cons]
    cases hk : pyLookup json k <;> simp [hk, ih]

theorem toList_mk (l : List Char) : (String.mk l).toList = l := rfl

/-- C3: for every non-empty URL string, `get_url` returns exactly the
string obtained by deleting every occurrence of the literal substring
`"/api"` (`specDeleteApi`, the spec's wording) and then stripping all
trailing slash characters (`specStripTrailing`). -/
theorem c3_get_url_normalizes (s : String) (h : s ≠ "") :
    Configuration.get_url (.str s)
      = .ok (String.mk (specStripTrailing (specDeleteApi s.toList))) := by
  have hemp : s.isEmpty = false := by
    cases he : s.isEmpty
    · rfl
    · exact absurd ((String.isEmpty_iff s).mp he) h
  simp only [Configuration.get_url, pyTruthy, hemp, Bool.not_false, if_true]
  rw [removeApi_eq_specDeleteApi, rstripSlashes_eq_specStripTrailing]

/-- Witness for C3 at the concrete URL `"http://h/api/"`. -/
theorem c3_witness :
    Configuration.get_url (.str "http://h/api/") = .ok "http://h"
    ∧ ("http://h/api/" : String) ≠ "" :=
  ⟨(c3_get_url_normalizes "http://h/api/" (by decide)).trans rfl, by decide⟩

/-- Counterexample to C4 as stated: normalizing `"/a/apipi"` succeeds with
the non-empty result `"/api"` (deleting the occurrence of `"/api"` at
position 2 glues a new occurrence together), but normalizing that result
again yields `""`, not `"/api"`. -/
theorem c4_counterexample :
    Configuration.get_url (.str "/a/apipi") = .ok "/api"
    ∧ ("/api" : String) ≠ ""
    ∧ Configuration.get_url (.str "/api") = .ok ""
    ∧ ("" : String) ≠ "/api" :=
  ⟨rfl, by decide, rfl, by decide⟩

/-- C4 as amended: normalization is idempotent on every URL whose
normalized result is non-empty and contains no occurrence of `"/api"`
(single-pass deletion can create a fresh occurrence, which a second pass
would then delete); and the three URLs named by the claim all normalize to
`"http://h"`. -/
theorem c4_idempotent_amended :
    (∀ s r : String, Configuration.get_url (.str s) = .ok r → r ≠ "" →
        containsApi r.toList = false →
        Configuration.get_url (.str r) = .ok r)
    ∧ Configuration.get_url (.str "http://h/api/") = .ok "http://h"
    ∧ Configuration.get_url (.str "http://h/api") = .ok "http://h"
    ∧ Configuration.get_url (.str "http://h/") = .ok "http://h" := by
  refine ⟨?_, rfl, rfl, rfl⟩
  intro s r h hne hnc
  have hemp : s.isEmpty = false := by
    cases he : s.isEmpty
    · rfl
    · rw [(String.isEmpty_iff s).mp he] at h
      simp [Configuration.get_url, pyTruthy,
        show ("" : String).isEmpty = true from rfl] at h
  simp only [Configuration.get_url, pyTruthy, hemp, Bool.not_false, if_true] at h
  rw [Except.ok.injEq] at h
  subst h
  have hre : (String.mk (rstripSlashes (removeApi s.toList))).isEmpty = false := by
    cases hie : (String.mk (rstripSlashes (removeApi s.toList))).isEmpty
    · rfl
    · exact absurd ((String.isEmpty_iff _).mp hie) hne
  simp only [Configuration.get_url, pyTruthy, hre, Bool.not_false, if_true]
  rw [toList_mk] at hnc ⊢
  rw [removeApi_id_of_not_contains _ hnc, rstripSlashes_idem]

/-- Witness for the amended C4: the normal form `"http://h"` of
`"http://h/api/"` renormalizes to itself. -/
theorem c4_witness :
    Configuration.get_url (.str "http://h") = .ok "http://h" :=
  c4_idempotent_amended.1 "http://h/api/" "http://h" rfl (by decide) (by decide)

/-- C5: when neither `"url"` nor `"ha_url"` is present in the config dict,
or the value found under them is the empty string, construction fails with
the `ValueError` stating the url is missing — raised while computing the
very first field, before any other work. -/
theorem c5_missing_url (json : List (String × JValue))
    (h : (pyLookup json "url" = none ∧ pyLookup json "ha_url" = none)
        ∨ Configuration.get json ["url", "ha_url"] .null = .str "") :
    Configuration.init json
      = .error (.valueError "Property \"url\" is missing in config") := by
  have hfalsy : pyTruthy (Configuration.get json ["url", "ha_url"] .null) = false := by
    rcases h with ⟨h1, h2⟩ | h
    · simp [Configuration.get, h1, h2, pyTruthy]
    · rw [h]; rfl
  have hurl : Configuration.get_url (Configuration.get json ["url", "ha_url"] .null)
      = .error (.valueError "Property \"url\" is missing in config") := by
    simp only [Configuration.get_url, hfalsy, Bool.false_eq_true, if_false]
  simp only [Configuration.init, hurl]

/-- Witness for C5: a config dict with neither url key. -/
theorem c5_witness :
    Configuration.init [("debug", JValue.bool true)]
      = .error (.valueError "Property \"url\" is missing in config") :=
  c5_missing_url _ (.inl ⟨rfl, rfl⟩)

/-- C6: `Configuration.get` returns the value stored under the first key
(in list order) present in the dict — `List.findSome?` over the candidate
keys — and the default when none is present; with the `None` default of the
Python signature (`JValue.null`) an absent key yields null. -/
theorem c6_get_first_key :
    (∀ (json : List (String × JValue)) (keys : List String) (dflt : JValue),
        Configuration.get json keys dflt
          = (keys.findSome? fun k => pyLookup json k).getD dflt)
    ∧ (∀ (json : List (String × JValue)) (keys : List String),
        (∀ k ∈ keys, pyLookup json k = none) →
        Configuration.get json keys JValue.null = JValue.null) := by
  refine ⟨configGet_eq_findSome, ?_⟩
  intro json keys h
  rw [configGet_eq_findSome]
  have hnone : (keys.findSome? fun k => pyLookup json k) = none := by
    induction keys with
    | nil => rfl
    | cons k ks ih =>
      rw [List.findSome?_cons, h k (by simp)]
      exact ih fun k' hk' => h k' (by simp [hk'])
  rw [hnone]
  rfl

/-- Witness for C6: an absent key with no default yields null. -/
theorem c6_witness :
    Configuration.get [("debug", JValue.bool false)] ["test"] JValue.null
      = JValue.null :=
  c6_get_first_key.2 _ ["test"] (by
    intro k hk
    simp only [List.mem_singleton] at hk
    subst hk
    rfl)

/-- C7: the session built by `create_session` carries
`Authorization: Bearer <token>` (exactly `"Bearer " ++ t` when the
configured token is the string `t`, so an empty token still yields
`"Bearer "`), `content-type: application/json`, and a `User-Agent` that is
the claimed prefix — with the region environment variable read at build
time, or `"unknown"` when it is absent — followed by the HTTP library's
default user agent. -/
theorem c7_session_headers (config : Configuration) (aws_region : Option String)
    (lib_ua : String) :
    ((SessionFactory.create_session config aws_region lib_ua).headers.lookup
        "Authorization" = some ("Bearer " ++ pyStr config.bearer_token))
    ∧ (∀ t, config.bearer_token = .str t →
        (SessionFactory.create_session config aws_region lib_ua).headers.lookup
          "Authorization" = some ("Bearer " ++ t))
    ∧ ((SessionFactory.create_session config aws_region lib_ua).headers.lookup
        "content-type" = some "application/json")
    ∧ (∃ rest,
        (SessionFactory.create_session config aws_region lib_ua).headers.lookup
          "User-Agent"
          = some (("Home Assistant Alexa Smart Home Skill - "
              ++ aws_region.getD "unknown" ++ " - ") ++ rest)) := by
  refine ⟨rfl, ?_, rfl, ⟨lib_ua, rfl⟩⟩
  intro t ht
  have h : (SessionFactory.create_session config aws_region lib_ua).headers.lookup
      "Authorization" = some ("Bearer " ++ pyStr config.bearer_token) := rfl
  rw [ht] at h
  exact h

/-- Witness for C7 at a concrete configuration, region and library UA. -/
theorem c7_witness :
    (SessionFactory.create_session
        ⟨"http://h", .bool true, .str "tok", .str "", .bool false⟩
        (some "eu-west-1") "python-requests/2.32").headers.lookup "Authorization"
      = some "Bearer tok" :=
  (c7_session_headers _ _ _).2.1 "tok" rfl

/-- C8: a list-valued `ssl_client` is stored as a tuple after construction;
a non-list value is stored unchanged, and an absent key is stored as the
empty-string default. -/
theorem c8_ssl_client_tuple (json : List (String × JValue)) (c : Configuration)
    (h : Configuration.init json = .ok c) :
    (∀ xs, pyLookup json "ssl_client" = some (.list xs) →
        c.ssl_client = .tuple xs)
    ∧ (∀ v, pyLookup json "ssl_client" = some v → (∀ xs, v ≠ .list xs) →
        c.ssl_client = v)
    ∧ (pyLookup json "ssl_client" = none → c.ssl_client = .str "") := by
  simp only [Configuration.init] at h
  cases hu : Configuration.get_url (Configuration.get json ["url", "ha_url"] .null) with
  | error e => rw [hu] at h; simp at h
  | ok url =>
    rw [hu] at h
    simp only [Except.ok.injEq] at h
    subst h
    refine ⟨?_, ?_, ?_⟩
    · intro xs hxs
      show tupleize (Configuration.get json ["ssl_client"] (.str "")) = .tuple xs
      simp only [Configuration.get, hxs]
      rfl
    · intro v hv hne
      show tupleize (Configuration.get json ["ssl_client"] (.str "")) = v
      simp only [Configuration.get, hv]
      cases v <;> first | rfl | exact absurd rfl (hne _)
    · intro hnone
      show tupleize (Configuration.get json ["ssl_client"] (.str "")) = .str ""
      simp only [Configuration.get, hnone]
      rfl

/-- Witness for C8: a two-element list becomes the ordered pair. -/
theorem c8_witness :
    Configuration.init
        [("url", JValue.str "http://h"),
         ("ssl_client", JValue.list [.str "cert.pem", .str "key.pem"])]
      = .ok ⟨"http://h", .bool true, .str "",
          .tuple [.str "cert.pem", .str "key.pem"], .bool false⟩
    ∧ (⟨"http://h", .bool true, .str "",
          .tuple [.str "cert.pem", .str "key.pem"],
          .bool false⟩ : Configuration).ssl_client
      = .tuple [.str "cert.pem", .str "key.pem"] :=
  ⟨rfl, (c8_ssl_client_tuple
      [("url", JValue.str "http://h"),
       ("ssl_client", JValue.list [.str "cert.pem", .str "key.pem"])]
      ⟨"http://h", .bool true, .str "",
        .tuple [.str "cert.pem", .str "key.pem"], .bool false⟩ rfl).1
      [.str "cert.pem", .str "key.pem"] rfl⟩

/-- C9: `build_url` is the concatenation `base ++ "/api/" ++ endpoint`, and
for a configuration constructed with url `"http://h:8123"` the client built
on `config.url` maps `"test"` to `"http://h:8123/api/test"`. -/
theorem c9_build_url :
    (∀ (base endpoint : String) (sess : PyObj),
        HomeAssistant.build_url ⟨.str base, sess⟩ endpoint
          = base ++ "/api/" ++ endpoint)
    ∧ (∀ (json : List (String × JValue)) (c : Configuration),
        Configuration.init json = .ok c → c.url = "http://h:8123" →
        ∀ sess, HomeAssistant.build_url ⟨.str c.url, sess⟩ "test"
          = "http://h:8123/api/test") := by
  constructor
  · intro base endpoint sess
    rfl
  · intro json c hinit hurl sess
    simp only [HomeAssistant.build_url, pyObjStr, hurl]
    rfl

/-- Witness for C9 at the config dict of the repository's test suite. -/
theorem c9_witness :
    Configuration.init [("url", JValue.str "http://h:8123")]
      = .ok ⟨"http://h:8123", .bool true, .str "", .str "", .bool false⟩
    ∧ HomeAssistant.build_url ⟨.str "http://h:8123", .str "sess"⟩ "test"
      = "http://h:8123/api/test" :=
  ⟨rfl, c9_build_url.2 [("url", JValue.str "http://h:8123")]
      ⟨"http://h:8123", .bool true, .str "", .str "", .bool false⟩ rfl rfl
      (.str "sess")⟩

/-- Counterexample to C2 as stated: a 304 response — a non-2xx status —
with a JSON body is not raised as any error; `raise_for_status` only covers
4xx and 5xx, so `post` returns the parsed body. -/
theorem c2_counterexample :
    HomeAssistant.post ⟨.str "http://h", .session ⟨[], .bool true, .str ""⟩⟩
        "alexa/smart_home" .null DEFAULT_TIMEOUT_SECONDS
        (.response 304 (.ok .null))
      = .ok (some .null)
    ∧ ¬ (200 ≤ 304 ∧ 304 < 300) :=
  ⟨rfl, by decide⟩

/-- C2 as amended: `post` returns null exactly on a read-timeout;
connection failures and 4xx/5xx statuses are raised with their error kinds;
outside 400–599 a body that fails to parse raises a decode error and a
parsed body is returned — so among failures only 4xx/5xx statuses (not
every non-2xx) are raised as HTTP errors. -/
theorem c2_post_amended (ha : HomeAssistant) (endpoint : String) (event : JValue)
    (t : Nat) (outcome : HttpOutcome) :
    (ha.post endpoint event t outcome = .ok none ↔ outcome = .readTimeout)
    ∧ (∀ msg, outcome = .connError msg →
        ha.post endpoint event t outcome = .error (.connError msg))
    ∧ (∀ st body, outcome = .response st body → 400 ≤ st → st < 600 →
        ha.post endpoint event t outcome = .error (.httpError st))
    ∧ (∀ st msg, outcome = .response st (.error msg) → ¬(400 ≤ st ∧ st < 600) →
        ha.post endpoint event t outcome = .error (.decodeError msg))
    ∧ (∀ st v, outcome = .response st (.ok v) → ¬(400 ≤ st ∧ st < 600) →
        ha.post endpoint event t outcome = .ok (some v)) := by
  refine ⟨?_, ?_, ?_, ?_, ?_⟩
  · cases outcome with
    | readTimeout => simp [HomeAssistant.post]
    | connError msg => simp [HomeAssistant.post]
    | response st body =>
      by_cases hst : 400 ≤ st ∧ st < 600
      · simp [HomeAssistant.post, handleResponse, raise_for_status, hst]
      · cases body <;>
          simp [HomeAssistant.post, handleResponse, raise_for_status, hst]
  · intro msg h
    subst h
    rfl
  · intro st body h hlo hhi
    subst h
    simp [HomeAssistant.post, handleResponse, raise_for_status, hlo, hhi]
  · intro st msg h hst
    subst h
    simp [HomeAssistant.post, handleResponse, raise_for_status, hst]
  · intro st v h hst
    subst h
    simp [HomeAssistant.post, handleResponse, raise_for_status, hst]

/-- Witness for the amended C2: a read-timeout yields null, and a 500
status raises an HTTP error. -/
theorem c2_post_amended_witness :
    HomeAssistant.post ⟨.str "http://h", .session ⟨[], .bool true, .str ""⟩⟩
        "alexa/smart_home" .null 30 .readTimeout = .ok none
    ∧ HomeAssistant.post ⟨.str "http://h", .session ⟨[], .bool true, .str ""⟩⟩
        "alexa/smart_home" .null 30 (.response 500 (.ok .null))
      = .error (.httpError 500) :=
  ⟨(c2_post_amended _ "alexa/smart_home" .null 30 .readTimeout).1.mpr rfl,
   (c2_post_amended _ "alexa/smart_home" .null 30 (.response 500 (.ok .null))).2.2.1
     500 (.ok .null) rfl (by decide) (by decide)⟩

/-- C10: the loader turns only JSON parse failures into a `ValueError`
carrying the file name and parse detail; any other failure to open or read
the file propagates unchanged, and a parsed object is returned as is. -/
theorem c10_loader_errors (filename detail oserr : String)
    (d : List (String × JValue)) :
    ConfigurationLoader.load filename (.success (.error detail))
      = .error (.valueError
          ("Invalid JSON in config file " ++ filename ++ ": " ++ detail))
    ∧ ConfigurationLoader.load filename (.failure oserr)
      = .error (.osError oserr)
    ∧ ConfigurationLoader.load filename (.success (.ok d)) = .ok d :=
  ⟨rfl, rfl, rfl⟩

/-- C1 (code bug): with a well-formed config file carrying a valid url, the
handler never reaches the POST — `ha = HomeAssistant(config)` passes one
positional argument to the two-parameter constructor and raises
`TypeError`, for every event and every possible network outcome, instead of
building a session and posting as the claim describes. -/
theorem c1_event_handler_type_error (event : JValue) (outcome : HttpOutcome) :
    event_handler (.success (.ok [("url", JValue.str "http://h:8123")]))
        event outcome
      = .error (.typeError
          "HomeAssistant.__init__ missing 1 required positional argument: session") :=
  rfl

end Haaska
